import Mathlib

/-!
Shallow embedding of the Locust Discord bot (TypeScript sources) and proofs
of the specification claims about it.

The embedding covers:
* the `StarboardConfig` and `Warning` records persisted to flat JSON files
  (`data/starboard.json`, `data/warnings.json`);
* the file-content model `FileData` distinguishing a missing file, a file
  whose content fails to parse as JSON, and a well-formed file;
* `loadStarboardConfigs` (src/index.ts), `saveConfig` (starboard command),
  the warnings read path of the `/warn` command;
* the `MessageCreate` and `MessageReactionAdd` event handlers of
  src/index.ts, modelled as pure step functions emitting an action trace;
* the channel-id extraction of the `/starboard` command
  (`matchAll` over the regex of 17 to 19 digit runs, then de-duplication
  through a JS `Set`, which keeps first occurrences in insertion order).
-/

namespace Locust

/-- A starboard configuration record, as persisted in `data/starboard.json`
(interface `StarboardConfig` in src/index.ts and in the starboard command). -/
structure StarboardConfig where
  guildId : String
  channelIds : List String
  emoji : String
  onlyAttachments : Bool
  autoThread : Bool
  hallOfFameChannelId : Option String
  threshold : Option Nat
deriving DecidableEq, Repr

/-- A warning record, as persisted in `data/warnings.json` by the `/warn`
command. -/
structure Warning where
  caseId : String
  userId : String
  staffId : String
  reason : String
  timestamp : String
deriving DecidableEq, Repr

/-- The observable content of a JSON-backed file: the file may be missing,
present but not parseable as JSON (`malformed`), or well formed with a
parsed value. -/
inductive FileData (α : Type) where
  | missing : FileData α
  | malformed : FileData α
  | ok : α → FileData α
deriving DecidableEq, Repr

/-- JS truthiness of an optional string (`undefined` and the empty string
are falsy), as used by `if (cfg.hallOfFameChannelId && cfg.threshold)`. -/
def truthyOptStr : Option String → Bool
  | none => false
  | some s => s ≠ ""

/-- JS truthiness of an optional number (`undefined` and `0` are falsy). -/
def truthyOptNat : Option Nat → Bool
  | none => false
  | some n => n ≠ 0

/-- `loadStarboardConfigs` from src/index.ts: a missing file yields `[]`;
a `JSON.parse` failure is caught, logged, and yields `[]`; otherwise the
parsed array is returned. -/
def loadStarboardConfigs : FileData (List StarboardConfig) → List StarboardConfig
  | .missing => []
  | .malformed => []
  | .ok l => l

/-- The read path of the `/warn` command: a missing file, empty content or a
`JSON.parse` failure (caught and logged) all yield `[]`; otherwise the
parsed array is returned. -/
def readWarnings : FileData (List Warning) → List Warning
  | .missing => []
  | .malformed => []
  | .ok l => l

/-- The read step of `saveConfig` in the starboard command: a missing file
yields `[]`, but the `JSON.parse` call is NOT wrapped in try/catch, so a
malformed file makes the whole save throw (modelled as `Except.error`). -/
def saveConfigLoad : FileData (List StarboardConfig) → Except Unit (List StarboardConfig)
  | .missing => .ok []
  | .malformed => .error ()
  | .ok l => .ok l

/-- The non-`guildId` fields of a `StarboardConfig`
(`Omit<StarboardConfig, 'guildId'>` in the starboard command). -/
structure ConfigData where
  channelIds : List String
  emoji : String
  onlyAttachments : Bool
  autoThread : Bool
  hallOfFameChannelId : Option String
  threshold : Option Nat
deriving DecidableEq, Repr

/-- Assemble a full record from a guild id and the remaining fields
(`{ guildId, ...data }`). -/
def ConfigData.toConfig (d : ConfigData) (guildId : String) : StarboardConfig :=
  { guildId := guildId
    channelIds := d.channelIds
    emoji := d.emoji
    onlyAttachments := d.onlyAttachments
    autoThread := d.autoThread
    hallOfFameChannelId := d.hallOfFameChannelId
    threshold := d.threshold }

/-- The pure core of `saveConfig`: filter out any existing record for the
guild, then append the new one. -/
def saveConfigList (configs : List StarboardConfig) (guildId : String)
    (d : ConfigData) : List StarboardConfig :=
  configs.filter (fun c => c.guildId ≠ guildId) ++ [d.toConfig guildId]

/-- `saveConfig` from the starboard command: read the file (`saveConfigLoad`),
filter out the record for `guildId`, append the new record, write the whole
array back. A malformed file propagates as an error. -/
def saveConfig (fd : FileData (List StarboardConfig)) (guildId : String)
    (d : ConfigData) : Except Unit (FileData (List StarboardConfig)) :=
  match saveConfigLoad fd with
  | .error e => .error e
  | .ok configs => .ok (.ok (saveConfigList configs guildId d))

/-- External effects a handler can request from the platform client. -/
inductive Action where
  | react (msgId : String) (emoji : String)
  | createThread (msgId : String)
  | hofSend (msgId : String)
deriving DecidableEq, Repr

/-- The data of a `MessageCreate` event, as the handler in src/index.ts
inspects it. -/
structure Msg where
  authorBot : Bool
  guildId : Option String
  channelId : String
  attachmentsCount : Nat
  channelIsText : Bool
  id : String
deriving DecidableEq, Repr

/-- The `MessageCreate` handler of src/index.ts: skip bot authors and
DMs, look up the guild config, require a monitored channel, apply the
attachments-only gate, react with the configured emoji, and optionally
create a discussion thread when the channel is a text channel. -/
def messageCreate (configs : List StarboardConfig) (m : Msg) : List Action :=
  if m.authorBot then [] else
  match m.guildId with
  | none => []
  | some gid =>
    match configs.find? (fun c => c.guildId == gid) with
    | none => []
    | some cfg =>
      if ¬ (cfg.channelIds.contains m.channelId) then []
      else if cfg.onlyAttachments ∧ m.attachmentsCount = 0 then []
      else
        Action.react m.id cfg.emoji ::
          (if cfg.autoThread ∧ m.channelIsText then [Action.createThread m.id] else [])

/-- The whole persistent + in-memory state the handlers touch: the two
JSON files and the process-local `postedToHallOfFame` set (modelled as a
list of message ids). -/
structure SysState where
  starFile : FileData (List StarboardConfig)
  warnFile : FileData (List Warning)
  posted : List String
deriving DecidableEq, Repr

/-- The `MessageCreate` handler as a system step: it reads the starboard
config file through `loadStarboardConfigs` and emits actions; it performs
no file write and does not touch the posted set. -/
def messageCreateStep (st : SysState) (m : Msg) : SysState × List Action :=
  (st, messageCreate (loadStarboardConfigs st.starFile) m)

/-- The data of a `MessageReactionAdd` event, as the handler inspects it,
including the outcomes of the fetch calls on partial objects and of the
cache lookups the handler performs. -/
structure ReactionEvent where
  userBot : Bool
  reactionPartial : Bool
  reactionFetchOk : Bool
  guildId : Option String
  emojiStr : String
  msgPartial : Bool
  msgFetchOk : Bool
  channelId : String
  fullFetchOk : Bool
  attachmentsCount : Nat
  channelIsText : Bool
  hasThread : Bool
  count : Option Nat
  msgId : String
  guildPresent : Bool
  hofResolvesToText : Bool
  authorPresent : Bool
deriving DecidableEq, Repr

/-- The early-return ladder of the `MessageReactionAdd` handler: bot user,
failed fetch of a partial reaction, no guild id, no config for the guild,
emoji mismatch, failed fetch of a partial message, falsy channel id,
unmonitored channel, failed full message fetch, attachments-only gate.
Returns the matched config when every gate passes. -/
def reactionGate (configs : List StarboardConfig) (e : ReactionEvent) :
    Option StarboardConfig :=
  if e.userBot then none else
  if e.reactionPartial ∧ ¬ e.reactionFetchOk then none else
  match e.guildId with
  | none => none
  | some gid =>
    match configs.find? (fun c => c.guildId == gid) with
    | none => none
    | some cfg =>
      if e.emojiStr ≠ cfg.emoji then none else
      if e.msgPartial ∧ ¬ e.msgFetchOk then none else
      if e.channelId = "" then none else
      if ¬ (cfg.channelIds.contains e.channelId) then none else
      if ¬ e.fullFetchOk then none else
      if cfg.onlyAttachments ∧ e.attachmentsCount = 0 then none else
      some cfg

/-- The auto-thread step of the reaction handler: create a thread when
enabled, the channel is a text channel and the message has no thread. -/
def threadActions (cfg : StarboardConfig) (e : ReactionEvent) : List Action :=
  if cfg.autoThread ∧ e.channelIsText ∧ ¬ e.hasThread
  then [Action.createThread e.msgId] else []

/-- The Hall-of-Fame phase of the reaction handler: when both a
Hall-of-Fame channel and a (truthy) threshold are configured and the
reaction count meets the threshold, skip if the message id is already in
the posted set, bail out if the guild, destination channel or author do
not resolve, otherwise send the embed and record the id. -/
def hofPhase (cfg : StarboardConfig) (posted : List String)
    (e : ReactionEvent) : List String × List Action :=
  if truthyOptStr cfg.hallOfFameChannelId ∧ truthyOptNat cfg.threshold then
    if e.count.getD 0 ≥ cfg.threshold.getD 0 then
      if posted.contains e.msgId then (posted, []) else
      if ¬ e.guildPresent then (posted, []) else
      if ¬ e.hofResolvesToText then (posted, []) else
      if ¬ e.authorPresent then (posted, []) else
      (e.msgId :: posted, [Action.hofSend e.msgId])
    else (posted, [])
  else (posted, [])

/-- The `MessageReactionAdd` handler of src/index.ts as a step on the
posted set: run the early-return ladder, then the auto-thread step, then
the Hall-of-Fame phase (the thread-creation call precedes the
Hall-of-Fame send, as in the source). -/
def reactionAdd (configs : List StarboardConfig) (posted : List String)
    (e : ReactionEvent) : List String × List Action :=
  match reactionGate configs e with
  | none => (posted, [])
  | some cfg =>
    ((hofPhase cfg posted e).1,
     threadActions cfg e ++ (hofPhase cfg posted e).2)

/-- The `MessageReactionAdd` handler as a system step: it re-reads the
starboard config file on each event and updates the posted set. -/
def reactionAddStep (st : SysState) (e : ReactionEvent) : SysState × List Action :=
  ({ st with
      posted := (reactionAdd (loadStarboardConfigs st.starFile) st.posted e).1 },
   (reactionAdd (loadStarboardConfigs st.starFile) st.posted e).2)

/-- Run a sequence of reaction-add events from a state, concatenating the
emitted actions in order. -/
def runReactions (st : SysState) : List ReactionEvent → SysState × List Action
  | [] => (st, [])
  | e :: es =>
    ((runReactions (reactionAddStep st e).1 es).1,
     (reactionAddStep st e).2 ++ (runReactions (reactionAddStep st e).1 es).2)

/-- Deliver a sequence of message-create events, concatenating the emitted
actions in order (the handler is stateless, so the state never changes). -/
def runMessages (st : SysState) : List Msg → List Action
  | [] => []
  | m :: ms => (messageCreateStep st m).2 ++ runMessages st ms

/-- A resolved target member of `/warn` (`getMember` can return null,
modelled by wrapping in `Option` at the call site). -/
structure TargetInfo where
  id : String
  isBot : Bool
deriving DecidableEq, Repr

/-- The reply the `/warn` command produces. -/
inductive WarnReply where
  | permissionDenied
  | invalidTarget
  | warned (caseId : String)
deriving DecidableEq, Repr

/-- The `/warn` command execute handler (src/commands/staff/warn.ts):
reject a caller without a role literally named "Staff"; reject a missing
or bot target; otherwise read the warnings file tolerantly, append the new
record, and rewrite the file. `caseId` and `timestamp` are inputs of the
model (randomness and clock). The result is the new warnings-file content
and the reply. -/
def warnExecute (staffRoleNames : List String) (target : Option TargetInfo)
    (staffId reason caseId timestamp : String)
    (wf : FileData (List Warning)) : FileData (List Warning) × WarnReply :=
  if ¬ (staffRoleNames.contains "Staff") then (wf, .permissionDenied)
  else
    match target with
    | none => (wf, .invalidTarget)
    | some t =>
      if t.isBot then (wf, .invalidTarget)
      else
        let warnings := readWarnings wf
        let w : Warning :=
          { caseId := caseId, userId := t.id, staffId := staffId
            reason := reason, timestamp := timestamp }
        (.ok (warnings ++ [w]), .warned caseId)

/-- One `/warn` invocation's inputs, for iterating the command. -/
structure WarnReq where
  staffRoleNames : List String
  target : TargetInfo
  staffId : String
  reason : String
  caseId : String
  timestamp : String
deriving DecidableEq, Repr

/-- The warning record a valid `/warn` invocation appends. -/
def WarnReq.toWarning (r : WarnReq) : Warning :=
  { caseId := r.caseId, userId := r.target.id, staffId := r.staffId
    reason := r.reason, timestamp := r.timestamp }

/-- A `/warn` invocation that passes both validation gates. -/
def WarnReq.valid (r : WarnReq) : Prop :=
  "Staff" ∈ r.staffRoleNames ∧ r.target.isBot = false

instance : DecidablePred WarnReq.valid := fun r =>
  decidable_of_iff ("Staff" ∈ r.staffRoleNames ∧ r.target.isBot = false) Iff.rfl

/-- The warnings-file content after one `/warn` invocation. -/
def warnStep (wf : FileData (List Warning)) (r : WarnReq) : FileData (List Warning) :=
  (warnExecute r.staffRoleNames (some r.target) r.staffId r.reason r.caseId r.timestamp wf).1

/-- Length of the leading run of decimal digits (JS `\d`). -/
def digitRun : List Char → Nat
  | [] => 0
  | c :: cs => if c.isDigit then digitRun cs + 1 else 0

/-- Left-to-right scan of `channelsInput.matchAll(/(\d\x7b17,19\x7d)/g)`:
at each position, a greedy match takes up to 19 leading digits and
succeeds when at least 17 are available, and scanning resumes after the
match; otherwise scanning advances one character. `fuel` bounds the
recursion by the string length (each step consumes at least one
character). -/
def scanIdsAux : Nat → List Char → List String
  | 0, _ => []
  | _, [] => []
  | fuel + 1, c :: cs =>
    let run := digitRun (c :: cs)
    if run ≥ 17 then
      let len := min run 19
      String.mk ((c :: cs).take len) :: scanIdsAux fuel ((c :: cs).drop len)
    else
      scanIdsAux fuel cs

/-- All regex matches of 17-to-19-digit runs in the input, in order,
possibly with duplicates. -/
def scanIds (s : String) : List String :=
  scanIdsAux s.data.length s.data

/-- Helper for `dedupFirst`: keep elements not yet seen, in order,
accumulating the seen ones. -/
def dedupFirstAux (seen : List String) : List String → List String
  | [] => []
  | x :: xs =>
    if x ∈ seen then dedupFirstAux seen xs
    else x :: dedupFirstAux (x :: seen) xs

/-- `Array.from(new Set(list))` in JS: remove duplicates keeping the first
occurrence of each element, preserving insertion order. -/
def dedupFirst (l : List String) : List String := dedupFirstAux [] l

/-- The id-extraction step of the `/starboard` command:
`Array.from(new Set(Array.from(channelsInput.matchAll(...), m => m[1])))`. -/
def extractIds (s : String) : List String :=
  dedupFirst (scanIds s)

/-- Channel kinds a cache lookup can resolve to (only `GuildText`
matters to the command). -/
inductive ChanKind where
  | guildText
  | other
deriving DecidableEq, Repr

/-- The reply the `/starboard` command produces. -/
inductive StarboardReply where
  | noValidChannels
  | configured (validChannelIds : List String)
deriving DecidableEq, Repr

/-- The valid channel ids of the `/starboard` command: extracted ids that
resolve in the guild channel cache to a guild text channel. -/
def validChannels (cache : String → Option ChanKind) (channelsInput : String) :
    List String :=
  (extractIds channelsInput).filter (fun id => cache id == some ChanKind.guildText)

/-- The `/starboard` command execute handler: extract and de-duplicate
candidate ids, keep those resolving to guild text channels, reply with an
error when none resolve (leaving the file untouched), otherwise save the
config (which throws on a malformed existing file) and confirm. -/
def starboardExecute (cache : String → Option ChanKind) (guildId channelsInput emoji : String)
    (onlyAttachments autoThread : Bool) (hofChannelId : Option String)
    (threshold : Option Nat) (fd : FileData (List StarboardConfig)) :
    Except Unit (FileData (List StarboardConfig) × StarboardReply) :=
  let validChannelIds := validChannels cache channelsInput
  if validChannelIds.isEmpty then .ok (fd, .noValidChannels)
  else
    let d : ConfigData :=
      { channelIds := validChannelIds, emoji := emoji
        onlyAttachments := onlyAttachments, autoThread := autoThread
        hallOfFameChannelId := hofChannelId, threshold := threshold }
    match saveConfig fd guildId d with
    | .error e => .error e
    | .ok fd2 => .ok (fd2, .configured validChannelIds)

/-! Concrete sample values used by witnesses and counterexamples. -/

/-- A sample non-`guildId` configuration payload. -/
def sampleData : ConfigData :=
  { channelIds := ["c1"], emoji := "star", onlyAttachments := false
    autoThread := false, hallOfFameChannelId := none, threshold := none }

/-- A sample persisted starboard configuration with Hall of Fame enabled. -/
def cfgHof : StarboardConfig :=
  { guildId := "g1", channelIds := ["c1"], emoji := "star"
    onlyAttachments := false, autoThread := false
    hallOfFameChannelId := some "hof", threshold := some 2 }

/-- A sample persisted starboard configuration without Hall of Fame. -/
def cfgPlain : StarboardConfig :=
  { guildId := "g1", channelIds := ["c1"], emoji := "star"
    onlyAttachments := false, autoThread := false
    hallOfFameChannelId := none, threshold := none }

/-- A sample system state whose starboard file holds `cfgPlain`. -/
def stPlain : SysState :=
  { starFile := .ok [cfgPlain], warnFile := .missing, posted := [] }

/-- A sample qualifying message in the monitored channel of `cfgPlain`. -/
def msgPlain : Msg :=
  { authorBot := false, guildId := some "g1", channelId := "c1"
    attachmentsCount := 0, channelIsText := true, id := "m1" }

/-- Recognizer for reaction-add actions. -/
def isReact : Action → Bool
  | .react _ _ => true
  | _ => false

/-- The concrete guild channel cache of the C6 example: the two mentioned
ids resolve to guild text channels, everything else is unknown. -/
def cacheC6 : String → Option ChanKind := fun id =>
  if id = "111111111111111111" then some .guildText
  else if id = "222222222222222222" then some .guildText
  else none

/-! ## Claim C2 -/

/-- Claim C2: after `saveConfig` writes a new config for a guild into a
well-formed file holding any starting array, the write succeeds, the
resulting array contains exactly one record for that guild (the new one),
and every record for any other guild is preserved unchanged, in order. -/
theorem saveConfig_unique_guild_record (configs : List StarboardConfig)
    (g : String) (d : ConfigData) :
    saveConfig (.ok configs) g d = .ok (.ok (saveConfigList configs g d)) ∧
    (saveConfigList configs g d).filter (fun c => c.guildId = g) = [d.toConfig g] ∧
    (saveConfigList configs g d).filter (fun c => c.guildId ≠ g) =
      configs.filter (fun c => c.guildId ≠ g) := by
  refine ⟨rfl, ?_, ?_⟩
  · simp only [saveConfigList, List.filter_append, List.filter_filter]
    have h1 : configs.filter
        (fun c => decide (c.guildId = g) && decide (c.guildId ≠ g)) = [] := by
      apply List.filter_eq_nil_iff.mpr
      intro c _
      by_cases h : c.guildId = g <;> simp [h]
    have h2 : List.filter (fun c => decide (c.guildId = g)) [d.toConfig g] =
        [d.toConfig g] := by
      simp [ConfigData.toConfig]
    rw [h2, h1]
    simp
  · simp only [saveConfigList, List.filter_append, List.filter_filter]
    have h2 : List.filter (fun c => decide (c.guildId ≠ g)) [d.toConfig g] = [] := by
      simp [ConfigData.toConfig]
    rw [h2]
    simp

/-! ## Claim C5 -/

/-- Claim C5: under a config with `onlyAttachments = true`, a message
without attachments in a monitored channel produces no action at all in
the message-create handler — in particular the configured reaction is not
applied. -/
theorem only_attachments_no_react (configs : List StarboardConfig)
    (m : Msg) (gid : String) (cfg : StarboardConfig)
    (hg : m.guildId = some gid)
    (hf : configs.find? (fun c => c.guildId == gid) = some cfg)
    (hmon : cfg.channelIds.contains m.channelId = true)
    (hoa : cfg.onlyAttachments = true)
    (hatt : m.attachmentsCount = 0) :
    messageCreate configs m = [] := by
  unfold messageCreate
  by_cases hb : m.authorBot = true
  · simp [hb]
  · simp only [Bool.not_eq_true] at hb
    simp [hb, hg, hf, hmon, hoa, hatt]

/-- Witness for C5 at a concrete config and message. -/
theorem only_attachments_no_react_witness :
    messageCreate
      [{ guildId := "g1", channelIds := ["c1"], emoji := "star"
         onlyAttachments := true, autoThread := false
         hallOfFameChannelId := none, threshold := none }]
      { authorBot := false, guildId := some "g1", channelId := "c1"
        attachmentsCount := 0, channelIsText := true, id := "m1" } = [] :=
  only_attachments_no_react _ _ "g1" _ rfl rfl (by decide) rfl rfl

/-! ## Claim C3 -/

/-- Claim C3: a `/warn` invocation by a caller without a role literally
named "Staff" replies with the permission-denied message and leaves the
warnings file untouched; with the role but a missing or bot target it
replies with the invalid-target message and leaves the file untouched. -/
theorem warn_denied_no_write (roles : List String) (target : Option TargetInfo)
    (sid reason cid ts : String) (wf : FileData (List Warning)) :
    ("Staff" ∉ roles →
      warnExecute roles target sid reason cid ts wf = (wf, .permissionDenied)) ∧
    ("Staff" ∈ roles →
      (target = none ∨ ∃ t, target = some t ∧ t.isBot = true) →
      warnExecute roles target sid reason cid ts wf = (wf, .invalidTarget)) := by
  constructor
  · intro h
    simp [warnExecute, h]
  · intro h ht
    rcases ht with h0 | ⟨t, h1, h2⟩
    · simp [warnExecute, h, h0]
    · simp [warnExecute, h, h1, h2]

/-- Witness for C3: both denial branches at concrete inputs. -/
theorem warn_denied_no_write_witness :
    warnExecute ["Member"] (some { id := "u1", isBot := false }) "s" "r" "c" "t"
      FileData.missing = (FileData.missing, .permissionDenied) ∧
    warnExecute ["Staff"] (some { id := "u2", isBot := true }) "s" "r" "c" "t"
      FileData.missing = (FileData.missing, .invalidTarget) :=
  ⟨(warn_denied_no_write ["Member"] _ "s" "r" "c" "t" _).1 (by decide),
   (warn_denied_no_write ["Staff"] _ "s" "r" "c" "t" _).2 (by decide)
     (Or.inr ⟨_, rfl, rfl⟩)⟩

/-! ## Claim C4 (corrected) -/

/-- Counterexample to C4 as stated: the `/starboard` save path does NOT
recover from a malformed config file by substituting an empty collection —
`saveConfig` on a malformed file throws (the `JSON.parse` call is not
wrapped in try/catch), instead of behaving as it does on the empty
collection. -/
theorem saveConfig_malformed_not_recovered :
    saveConfig FileData.malformed "g1" sampleData = .error () ∧
    saveConfig FileData.malformed "g1" sampleData ≠
      .ok (.ok (saveConfigList [] "g1" sampleData)) :=
  ⟨rfl, fun h => Except.noConfusion h⟩

/-- Claim C4 (amended): the starboard event handlers' read
(`loadStarboardConfigs`) and the `/warn` read recover from a missing or
malformed file by substituting the empty collection; the `/starboard`
save path recovers only from a missing file, and throws on malformed
JSON. -/
theorem json_recovery_paths :
    loadStarboardConfigs FileData.missing = [] ∧
    loadStarboardConfigs FileData.malformed = [] ∧
    readWarnings FileData.missing = [] ∧
    readWarnings FileData.malformed = [] ∧
    saveConfigLoad FileData.missing = .ok [] ∧
    saveConfigLoad FileData.malformed = .error () :=
  ⟨rfl, rfl, rfl, rfl, rfl, rfl⟩

/-! ## Claim C7 -/

/-- Reading back a well-formed warnings file yields its array. -/
theorem readWarnings_ok (l : List Warning) : readWarnings (.ok l) = l := rfl

/-- A valid `/warn` invocation appends exactly its record to the warnings
read from the current file content. -/
theorem warnStep_valid (wf : FileData (List Warning)) (r : WarnReq)
    (h : r.valid) :
    warnStep wf r = .ok (readWarnings wf ++ [r.toWarning]) := by
  obtain ⟨h1, h2⟩ := h
  simp [warnStep, warnExecute, h1, h2, WarnReq.toWarning]

/-- Folding valid `/warn` invocations from a well-formed file appends
their records in order. -/
theorem warn_roundtrip_aux (reqs : List WarnReq) (acc : List Warning)
    (h : ∀ r ∈ reqs, r.valid) :
    readWarnings (reqs.foldl warnStep (.ok acc)) = acc ++ reqs.map WarnReq.toWarning := by
  induction reqs generalizing acc with
  | nil => simp [readWarnings_ok]
  | cons r rs ih =>
    have hr : r.valid := h r (List.mem_cons_self r rs)
    have hrs : ∀ x ∈ rs, x.valid := fun x hx => h x (List.mem_cons_of_mem r hx)
    simp only [List.foldl_cons, List.map_cons]
    rw [warnStep_valid _ _ hr, readWarnings_ok,
      ih (acc ++ [r.toWarning]) hrs]
    simp

/-- Claim C7: writing N warning records through the `/warn` append path,
starting from a missing warnings file, and reloading the file yields
exactly those N records with identical fields, in append order. -/
theorem warn_roundtrip (reqs : List WarnReq)
    (h : ∀ r ∈ reqs, r.valid) :
    readWarnings (reqs.foldl warnStep FileData.missing) = reqs.map WarnReq.toWarning := by
  cases reqs with
  | nil => rfl
  | cons r rs =>
    have hr : r.valid := h r (List.mem_cons_self r rs)
    have hrs : ∀ x ∈ rs, x.valid := fun x hx => h x (List.mem_cons_of_mem r hx)
    simp only [List.foldl_cons, List.map_cons]
    rw [warnStep_valid _ _ hr]
    have hm : readWarnings FileData.missing = ([] : List Warning) := rfl
    rw [hm, List.nil_append, warn_roundtrip_aux rs [r.toWarning] hrs]
    simp

/-- Witness for C7 at two concrete `/warn` invocations. -/
theorem warn_roundtrip_witness :
    readWarnings
      ([{ staffRoleNames := ["Staff"], target := { id := "u1", isBot := false }
          staffId := "s1", reason := "spam", caseId := "A1", timestamp := "t1" },
        { staffRoleNames := ["Staff", "Mod"], target := { id := "u2", isBot := false }
          staffId := "s2", reason := "rude", caseId := "B2", timestamp := "t2" }].foldl
        warnStep FileData.missing) =
      [{ caseId := "A1", userId := "u1", staffId := "s1", reason := "spam", timestamp := "t1" },
       { caseId := "B2", userId := "u2", staffId := "s2", reason := "rude", timestamp := "t2" }] :=
  warn_roundtrip _ (by decide)

/-! ## Claim C1 -/

/-- The Hall-of-Fame phase neither removes an id from the posted set nor
emits a Hall-of-Fame send for an id already in the set. -/
theorem hofPhase_guard (cfg : StarboardConfig) (posted : List String)
    (e : ReactionEvent) (id : String) (h : id ∈ posted) :
    id ∈ (hofPhase cfg posted e).1 ∧
      Action.hofSend id ∉ (hofPhase cfg posted e).2 := by
  unfold hofPhase
  repeat' split
  all_goals simp_all
  rintro rfl
  simp_all

/-- The auto-thread step never emits a Hall-of-Fame send. -/
theorem threadActions_no_hofSend (cfg : StarboardConfig) (e : ReactionEvent)
    (id : String) : Action.hofSend id ∉ threadActions cfg e := by
  unfold threadActions
  split <;> simp

/-- One reaction-add step neither removes an id from the posted set nor
emits a Hall-of-Fame send for an id already in the set. -/
theorem reactionAdd_step_guard (configs : List StarboardConfig)
    (posted : List String) (e : ReactionEvent) (id : String)
    (h : id ∈ posted) :
    id ∈ (reactionAdd configs posted e).1 ∧
      Action.hofSend id ∉ (reactionAdd configs posted e).2 := by
  unfold reactionAdd
  cases hg : reactionGate configs e with
  | none => exact ⟨h, by simp⟩
  | some cfg =>
    refine ⟨(hofPhase_guard cfg posted e id h).1, ?_⟩
    simp only [List.mem_append, not_or]
    exact ⟨threadActions_no_hofSend cfg e id,
      (hofPhase_guard cfg posted e id h).2⟩

/-- Claim C1: once a message id is in the in-memory posted-to-Hall-of-Fame
set, no later reaction-add event in the same process lifetime emits
another Hall-of-Fame send for that id, whatever the events carry. -/
theorem hof_no_repost (st : SysState) (es : List ReactionEvent) (id : String)
    (h : id ∈ st.posted) :
    Action.hofSend id ∉ (runReactions st es).2 := by
  induction es generalizing st with
  | nil =>
    simp [runReactions]
  | cons e es ih =>
    have hg := reactionAdd_step_guard (loadStarboardConfigs st.starFile)
      st.posted e id h
    simp only [runReactions, List.mem_append, not_or]
    refine ⟨?_, ?_⟩
    · exact hg.2
    · exact ih (reactionAddStep st e).1 hg.1

/-- Witness for C1: a state whose posted set holds "m1" and a reaction
event on "m1" that would otherwise meet the Hall-of-Fame threshold. -/
theorem hof_no_repost_witness :
    Action.hofSend "m1" ∉
      (runReactions
        { starFile := .ok [cfgHof], warnFile := .missing, posted := ["m1"] }
        [{ userBot := false, reactionPartial := false, reactionFetchOk := true
           guildId := some "g1", emojiStr := "star", msgPartial := false
           msgFetchOk := true, channelId := "c1", fullFetchOk := true
           attachmentsCount := 0, channelIsText := true, hasThread := false
           count := some 5, msgId := "m1", guildPresent := true
           hofResolvesToText := true, authorPresent := true }]).2 :=
  hof_no_repost _ _ "m1" (by decide)

/-! ## Claim C8 (corrected) -/

/-- Counterexample to C8 as stated: the message-create handler keeps no
per-message state, so re-delivering the same qualifying message-create
event applies the configured reaction a second time — the run of two
identical deliveries contains two identical react actions. -/
theorem redelivery_double_react :
    (runMessages stPlain [msgPlain, msgPlain]).count
      (Action.react "m1" "star") = 2 := by
  decide

/-- Claim C8 (amended): each single delivery of a qualifying
message-create event (non-bot author, configured guild, monitored
channel, attachments rule satisfied) makes exactly one reaction-add call;
there is no de-duplication across deliveries, so re-delivery of the same
event reacts again. -/
theorem messageCreate_single_react (configs : List StarboardConfig)
    (m : Msg) (gid : String) (cfg : StarboardConfig)
    (hb : m.authorBot = false)
    (hg : m.guildId = some gid)
    (hf : configs.find? (fun c => c.guildId == gid) = some cfg)
    (hmon : cfg.channelIds.contains m.channelId = true)
    (hatt : cfg.onlyAttachments = true → m.attachmentsCount ≠ 0) :
    (messageCreate configs m).countP isReact = 1 := by
  have hcond : ¬ (cfg.onlyAttachments = true ∧ m.attachmentsCount = 0) :=
    fun hc => hatt hc.1 hc.2
  unfold messageCreate
  simp only [hb, hg, hf, Bool.false_eq_true, if_false, if_neg hcond, hmon]
  simp only [not_true, if_false, ite_not]
  split <;> simp [List.countP_cons, isReact]

/-- Witness for the amended C8 at a concrete config and message. -/
theorem messageCreate_single_react_witness :
    (messageCreate [cfgPlain] msgPlain).countP isReact = 1 :=
  messageCreate_single_react [cfgPlain] msgPlain "g1" cfgPlain rfl rfl rfl
    (by decide) (by decide)

/-! ## Claim C6 -/

/-- Claim C6: on the example input the command extracts both 17-to-19
digit identifiers (one from a mention, one bare), drops the unresolvable
token, and keeps exactly the two resolving ids in order; and whenever no
extracted id resolves to a guild text channel, the command replies with
the no-valid-channels error and leaves the config file untouched. -/
theorem starboard_channel_parsing :
    validChannels cacheC6 "<#111111111111111111> 222222222222222222 not-an-id" =
      ["111111111111111111", "222222222222222222"] ∧
    ∀ (cache : String → Option ChanKind) (gid input emoji : String)
      (oa auto : Bool) (hof : Option String) (th : Option Nat)
      (fd : FileData (List StarboardConfig)),
      validChannels cache input = [] →
      starboardExecute cache gid input emoji oa auto hof th fd =
        .ok (fd, .noValidChannels) := by
  refine ⟨by decide, ?_⟩
  intro cache gid input emoji oa auto hof th fd h
  simp [starboardExecute, h]

/-- Witness for C6: a concrete invocation where no id resolves. -/
theorem starboard_channel_parsing_witness :
    starboardExecute (fun _ => none) "g1"
      "<#111111111111111111> 222222222222222222 not-an-id" "star"
      false false none none FileData.missing =
      .ok (FileData.missing, .noValidChannels) :=
  starboard_channel_parsing.2 (fun _ => none) "g1" _ "star" false false
    none none FileData.missing (by decide)

/-! ## Claim C9 -/

/-- Membership in the partially de-duplicated list: an element appears iff
it is in the remaining input and not yet seen. -/
theorem mem_dedupFirstAux (a : String) (seen l : List String) :
    a ∈ dedupFirstAux seen l ↔ a ∈ l ∧ a ∉ seen := by
  induction l generalizing seen with
  | nil => simp [dedupFirstAux]
  | cons x xs ih =>
    rw [dedupFirstAux]
    split
    · rename_i hx
      rw [ih]
      constructor
      · rintro ⟨h1, h2⟩
        exact ⟨List.mem_cons_of_mem x h1, h2⟩
      · rintro ⟨h1, h2⟩
        rcases List.mem_cons.mp h1 with rfl | h1
        · exact absurd hx h2
        · exact ⟨h1, h2⟩
    · rename_i hx
      by_cases hax : a = x
      · subst hax
        simp [hx]
      · simp [List.mem_cons, hax, ih]

/-- The partially de-duplicated list has no duplicates. -/
theorem dedupFirstAux_nodup (seen l : List String) :
    (dedupFirstAux seen l).Nodup := by
  induction l generalizing seen with
  | nil => simp [dedupFirstAux]
  | cons x xs ih =>
    rw [dedupFirstAux]
    split
    · exact ih seen
    · refine List.nodup_cons.mpr ⟨?_, ih (x :: seen)⟩
      intro hx
      exact ((mem_dedupFirstAux x (x :: seen) xs).mp hx).2 (List.mem_cons_self x seen)

/-- The partially de-duplicated list is a sublist of the input. -/
theorem dedupFirstAux_sublist (seen l : List String) :
    List.Sublist (dedupFirstAux seen l) l := by
  induction l generalizing seen with
  | nil => simp [dedupFirstAux]
  | cons x xs ih =>
    rw [dedupFirstAux]
    split
    · exact (ih seen).cons x
    · exact (ih (x :: seen)).cons₂ x

/-- Membership in the de-duplicated list coincides with membership in the
original list. -/
theorem mem_dedupFirst (a : String) (l : List String) :
    a ∈ dedupFirst l ↔ a ∈ l := by
  rw [dedupFirst, mem_dedupFirstAux]
  simp

/-- The de-duplicated list has no duplicates. -/
theorem dedupFirst_nodup (l : List String) : (dedupFirst l).Nodup :=
  dedupFirstAux_nodup [] l

/-- The de-duplicated list is a sublist of the original, so it keeps the
original relative order (first occurrences). -/
theorem dedupFirst_sublist (l : List String) : List.Sublist (dedupFirst l) l :=
  dedupFirstAux_sublist [] l

/-- Claim C9: for every channels input, the extracted id list is
duplicate-free, is a sublist of the raw regex matches (so it preserves
first-occurrence order), contains exactly the matched ids, and therefore
`validChannelIds` is duplicate-free for every cache. -/
theorem extractIds_dedup (s : String) :
    (extractIds s).Nodup ∧ List.Sublist (extractIds s) (scanIds s) ∧
      (∀ a, a ∈ extractIds s ↔ a ∈ scanIds s) ∧
      ∀ cache : String → Option ChanKind, (validChannels cache s).Nodup :=
  ⟨dedupFirst_nodup _, dedupFirst_sublist _, fun a => mem_dedupFirst a _,
   fun _ => (dedupFirst_nodup _).filter _⟩

/-! ## Claim C10 -/

/-- Claim C10: the message-create handler leaves the whole system state —
starboard config file, warnings file and posted-to-Hall-of-Fame set —
unchanged, and every action it emits is a reaction or a thread creation
(never a Hall-of-Fame send, and there is no file-write effect at all). -/
theorem messageCreate_frame (st : SysState) (m : Msg) :
    (messageCreateStep st m).1 = st ∧
    ∀ a ∈ (messageCreateStep st m).2,
      (∃ mid em, a = Action.react mid em) ∨ ∃ mid, a = Action.createThread mid := by
  refine ⟨rfl, ?_⟩
  intro a ha
  simp only [messageCreateStep] at ha
  unfold messageCreate at ha
  repeat' split at ha
  all_goals simp_all
  rcases ha with rfl | rfl
  · exact Or.inl ⟨_, _, rfl⟩
  · exact Or.inr ⟨_, rfl⟩

/-- Witness for C10 at a concrete state and message. -/
theorem messageCreate_frame_witness :
    (messageCreateStep stPlain msgPlain).1 = stPlain ∧
      ((∃ mid em, Action.react "m1" "star" = Action.react mid em) ∨
        ∃ mid, Action.react "m1" "star" = Action.createThread mid) :=
  ⟨(messageCreate_frame stPlain msgPlain).1,
   (messageCreate_frame stPlain msgPlain).2 (Action.react "m1" "star") (by decide)⟩

end Locust
